import Mathlib

/-!
Verification of the orchestration and diagnostics layer of the
AI_content_gen repository (pipeline coordinator in `main.py`, retry/backoff
primitive in `src/uploader/upload.py`, diagnostics aggregator in
`src/technician_agent/technician.py`, log writer in
`src/utils/logging_utils.py`).

Python values that flow between the coordinator and its collaborators are
modelled by the `PyVal` type with Python truthiness; fallible Python calls
are modelled as `Except String` computations (the `String` is `str(e)` of
the raised exception); observable side effects (collaborator invocations,
retry sleeps) are modelled as explicit event traces.  Machine floats that
the source manipulates (durations, delays) are modelled as rationals.
-/

namespace ACG

/-- Python value universe for the data handed between pipeline stages:
`None`, booleans, integers, strings, lists and string-keyed dicts
(dicts keep insertion order, as Python dicts do). -/
inductive PyVal where
  | none
  | bool (b : Bool)
  | int (n : Int)
  | str (s : String)
  | list (xs : List PyVal)
  | dict (kvs : List (String × PyVal))

/-- Python truthiness (`bool(v)`): `None`, `False`, `0`, `""` and empty
containers are falsy, everything else truthy. -/
def PyVal.truthy : PyVal → Bool
  | .none => false
  | .bool b => b
  | .int n => n != 0
  | .str s => s != ""
  | .list xs => xs.length != 0
  | .dict kvs => kvs.length != 0

/-- Python identity test `v is None`. -/
def PyVal.isNone : PyVal → Bool
  | .none => true
  | _ => false

/-- Python subscript `v[k]` on a dict: `KeyError` when the key is missing,
`TypeError` when the value is not a dict. -/
def pyGet (v : PyVal) (k : String) : Except String PyVal :=
  match v with
  | .dict kvs =>
    match kvs.lookup k with
    | some u => .ok u
    | Option.none => .error ("KeyError: " ++ k)
  | _ => .error ("TypeError: value is not subscriptable: " ++ k)

/-- Python `v.get(k)` on a dict (default `None`); `AttributeError` when the
value is not a dict. -/
def pyDictGet (v : PyVal) (k : String) : Except String PyVal :=
  match v with
  | .dict kvs => .ok ((kvs.lookup k).getD PyVal.none)
  | _ => .error ("AttributeError: get: " ++ k)

/-! ## Backoff Retrier — `Uploader._retry_upload` (src/uploader/upload.py)

```python
for attempt in range(max_retries):
    try:
        return func(*args, **kwargs)
    except Exception as e:
        if attempt == max_retries - 1:
            raise
        delay = base_delay * (2 ** attempt)
        logger.warning(...)
        time.sleep(delay)
```

The wrapped `func` (already bound with its arguments) is modelled as a map
from the 0-indexed attempt number to that invocation's outcome; `max_retries`
and `retry_delay` are the per-platform configuration values the source reads
from `config.platforms[platform]`.  The invocations and sleeps that the loop
performs are recorded in an event trace. -/

/-- An observable step of the retry loop: invoking the wrapped operation on
a given 0-indexed attempt, or blocking in `time.sleep` for a delay. -/
inductive RetryEvent where
  | call (attempt : Nat)
  | sleep (delay : ℚ)
deriving DecidableEq, Repr

/-- What `_retry_upload` hands back to its caller: the operation's value, an
exception propagated from the final attempt, or Python's implicit `None`
when the loop body never runs (`range(0)`). -/
inductive RetryOutcome (α ε : Type) where
  | value (a : α)
  | raised (e : ε)
  | noneResult
deriving DecidableEq, Repr

/-- Body of the `for attempt in range(max_retries)` loop, structurally
recursing over the (materialised) list of attempt indices. -/
def retryGo (op : Nat → Except ε α) (base : ℚ) (maxRetries : Nat) :
    List Nat → List RetryEvent × RetryOutcome α ε
  | [] => ([], .noneResult)
  | attempt :: rest =>
    match op attempt with
    | .ok a => ([.call attempt], .value a)
    | .error e =>
      if attempt = maxRetries - 1 then
        ([.call attempt], .raised e)
      else
        let r := retryGo op base maxRetries rest
        (.call attempt :: .sleep (base * 2 ^ attempt) :: r.1, r.2)

/-- Model of `Uploader._retry_upload` for one platform, parameterised by the
platform's configured `max_retries` and `retry_delay` (base delay). -/
def retryUpload (op : Nat → Except ε α) (maxRetries : Nat) (base : ℚ) :
    List RetryEvent × RetryOutcome α ε :=
  retryGo op base maxRetries (List.range maxRetries)

/-- Number of operation invocations recorded in a retry trace. -/
def callCount (tr : List RetryEvent) : Nat :=
  (tr.filter fun e => match e with | .call _ => true | _ => false).length

/-- Canonical trace of a retry run whose first `j` attempts all fail:
attempt `i` followed by the backoff sleep `base * 2 ^ i`, for `i < j`. -/
def failTrace (base : ℚ) (j : Nat) : List RetryEvent :=
  (List.range j).flatMap fun i => [RetryEvent.call i, RetryEvent.sleep (base * 2 ^ i)]

theorem retryGo_cons_ok (op : Nat → Except ε α) (base : ℚ) (maxR i : Nat)
    (rest : List Nat) (v : α) (h : op i = .ok v) :
    retryGo op base maxR (i :: rest) = ([.call i], .value v) := by
  simp [retryGo, h]

theorem retryGo_cons_raise (op : Nat → Except ε α) (base : ℚ) (maxR i : Nat)
    (rest : List Nat) (e : ε) (h : op i = .error e) (hi : i = maxR - 1) :
    retryGo op base maxR (i :: rest) = ([.call i], .raised e) := by
  subst hi
  simp [retryGo, h]

theorem retryGo_cons_retry (op : Nat → Except ε α) (base : ℚ) (maxR i : Nat)
    (rest : List Nat) (e : ε) (h : op i = .error e) (hi : i ≠ maxR - 1) :
    retryGo op base maxR (i :: rest) =
      (RetryEvent.call i :: RetryEvent.sleep (base * 2 ^ i) ::
        (retryGo op base maxR rest).1, (retryGo op base maxR rest).2) := by
  simp [retryGo, h, hi]

theorem callCount_cons_call (i : Nat) (tr : List RetryEvent) :
    callCount (RetryEvent.call i :: tr) = callCount tr + 1 := by
  simp [callCount]

theorem callCount_cons_sleep (d : ℚ) (tr : List RetryEvent) :
    callCount (RetryEvent.sleep d :: tr) = callCount tr := by
  simp [callCount]

theorem callCount_retryGo (op : Nat → Except ε α) (base : ℚ) (maxR : Nat)
    (l : List Nat) : callCount (retryGo op base maxR l).1 ≤ l.length := by
  induction l with
  | nil => simp [retryGo, callCount]
  | cons i rest ih =>
    cases hop : op i with
    | ok a =>
      rw [retryGo_cons_ok op base maxR i rest a hop]
      simp [callCount]
    | error e =>
      by_cases hi : i = maxR - 1
      · rw [retryGo_cons_raise op base maxR i rest e hop hi]
        simp [callCount]
      · rw [retryGo_cons_retry op base maxR i rest e hop hi]
        simp only [callCount_cons_call, callCount_cons_sleep, List.length_cons]
        exact Nat.succ_le_succ ih

theorem range'_succ_cons (s n : Nat) :
    List.range' s (n + 1) = s :: List.range' (s + 1) n := by
  simp [List.range']

theorem retryGo_allFail (op : Nat → Except ε α) (base : ℚ) (maxR : Nat)
    (errs : Nat → ε) (hf : ∀ i, i < maxR → op i = .error (errs i)) :
    ∀ n a, a + n = maxR → 0 < n →
      retryGo op base maxR (List.range' a n) =
        (((List.range' a (n - 1)).flatMap fun i =>
            [RetryEvent.call i, RetryEvent.sleep (base * 2 ^ i)])
          ++ [RetryEvent.call (maxR - 1)],
         RetryOutcome.raised (errs (maxR - 1))) := by
  intro n
  induction n with
  | zero => intro a _ h0; exact absurd h0 (by simp)
  | succ n ih =>
    intro a ha _
    have haR : a < maxR := by omega
    have hfa := hf a haR
    rw [range'_succ_cons]
    cases n with
    | zero =>
      have haeq : a = maxR - 1 := by omega
      subst haeq
      rw [retryGo_cons_raise op base maxR _ _ _ hfa rfl]
      simp
    | succ k =>
      have hane : a ≠ maxR - 1 := by omega
      have hrec := ih (a + 1) (by omega) (by omega)
      rw [retryGo_cons_retry op base maxR _ _ _ hfa hane, hrec]
      have hn : k + 1 + 1 - 1 = (k + 1 - 1) + 1 := by omega
      rw [hn, range'_succ_cons, List.flatMap_cons]
      simp

theorem retryGo_firstSuccess (op : Nat → Except ε α) (base : ℚ) (maxR : Nat)
    (errs : Nat → ε) (j : Nat) (v : α) (hj : j < maxR) (hmax : 1 ≤ maxR)
    (hf : ∀ i, i < j → op i = .error (errs i)) (hv : op j = .ok v) :
    ∀ n a, a + n = maxR → a ≤ j →
      retryGo op base maxR (List.range' a n) =
        (((List.range' a (j - a)).flatMap fun i =>
            [RetryEvent.call i, RetryEvent.sleep (base * 2 ^ i)])
          ++ [RetryEvent.call j],
         RetryOutcome.value v) := by
  intro n
  induction n with
  | zero => intro a ha haj; omega
  | succ n ih =>
    intro a ha haj
    rw [range'_succ_cons]
    by_cases hja : a = j
    · subst hja
      rw [retryGo_cons_ok op base maxR _ _ _ hv]
      simp
    · have haj' : a < j := by omega
      have hane : a ≠ maxR - 1 := by omega
      have hrec := ih (a + 1) (by omega) (by omega)
      rw [retryGo_cons_retry op base maxR _ _ _ (hf a haj') hane, hrec]
      have hn : j - a = (j - (a + 1)) + 1 := by omega
      rw [hn, range'_succ_cons, List.flatMap_cons]
      simp

/-- C4: with a positive retry budget, `_retry_upload` invokes the wrapped
operation at most `maxRetries` times; when the first attempts fail it sleeps
exactly `base * 2 ^ (n - 1)` before retry `n` (the trace interleaves
`call i` with `sleep (base * 2 ^ i)`); a failure on a non-final attempt is
swallowed and the loop goes on, while the exception of the final attempt is
exactly the one propagated to the caller. -/
theorem retry_backoff_contract (op : Nat → Except ε α) (maxR : Nat) (base : ℚ)
    (errs : Nat → ε) (h : 1 ≤ maxR) :
    callCount (retryUpload op maxR base).1 ≤ maxR
    ∧ ((∀ i, i < maxR → op i = .error (errs i)) →
        retryUpload op maxR base =
          (failTrace base (maxR - 1) ++ [RetryEvent.call (maxR - 1)],
           RetryOutcome.raised (errs (maxR - 1))))
    ∧ (∀ j v, j < maxR → (∀ i, i < j → op i = .error (errs i)) → op j = .ok v →
        retryUpload op maxR base =
          (failTrace base j ++ [RetryEvent.call j], RetryOutcome.value v)) := by
  refine ⟨?_, ?_, ?_⟩
  · simpa [retryUpload] using callCount_retryGo op base maxR (List.range maxR)
  · intro hf
    have := retryGo_allFail op base maxR errs hf maxR 0 (by omega) (by omega)
    simpa [retryUpload, failTrace, List.range_eq_range'] using this
  · intro j v hj hf hv
    have := retryGo_firstSuccess op base maxR errs j v hj h hf hv maxR 0
      (by omega) (by omega)
    simpa [retryUpload, failTrace, List.range_eq_range'] using this

/-- Concrete operation used by the retry witnesses: attempt 0 fails with
error code 7, every later attempt returns 41. -/
def opFailOnce : Nat → Except Nat Nat :=
  fun i => if i = 0 then .error 7 else .ok 41

theorem retry_backoff_contract_witness :
    1 ≤ 3
    ∧ (callCount (retryUpload opFailOnce 3 2).1 ≤ 3
      ∧ ((∀ i, i < 3 → opFailOnce i = .error ((fun _ => 7) i)) →
          retryUpload opFailOnce 3 2 =
            (failTrace 2 2 ++ [RetryEvent.call 2], RetryOutcome.raised 7))
      ∧ (∀ j v, j < 3 → (∀ i, i < j → opFailOnce i = .error ((fun _ => 7) i)) →
            opFailOnce j = .ok v →
          retryUpload opFailOnce 3 2 =
            (failTrace 2 j ++ [RetryEvent.call j], RetryOutcome.value v))) :=
  ⟨by decide, retry_backoff_contract opFailOnce 3 2 (fun _ => 7) (by decide)⟩

/-- C10: with a zero retry budget (`max_retries = 0`), `range(0)` is empty,
so `_retry_upload` never invokes the operation, never sleeps, and falls off
the loop returning Python's implicit `None` without raising. -/
theorem retry_zero_budget_returns_none (op : Nat → Except ε α) (base : ℚ) :
    retryUpload op 0 base = ([], RetryOutcome.noneResult) := rfl

/-! ## Pipeline Coordinator — `run_full_pipeline` (main.py)

Each collaborator method the coordinator invokes is modelled as a function
from its `PyVal` arguments to `Except String PyVal` (error = the raised
exception's `str(e)`).  The coordinator's observable behaviour is an event
trace (which stage functions and finalization entry points it invoked) next
to the `results` dict it returns, modelled as `RunReport`. -/

mutual
/-- Python `str(x)` on a stage output.  Scalars render exactly; for
containers the rendering abbreviates Python repr (quoting omitted) — no
property proved below inspects rendered text. -/
def renderVal : PyVal → String
  | .none => "None"
  | .bool b => if b then "True" else "False"
  | .int n => toString n
  | .str s => s
  | .list xs => "[" ++ renderSeq xs ++ "]"
  | .dict kvs => "\x7b" ++ renderKvs kvs ++ "\x7d"
def renderSeq : List PyVal → String
  | [] => ""
  | [x] => renderVal x
  | x :: y :: xs => renderVal x ++ ", " ++ renderSeq (y :: xs)
def renderKvs : List (String × PyVal) → String
  | [] => ""
  | [(k, v)] => k ++ ": " ++ renderVal v
  | (k, v) :: y :: xs => k ++ ": " ++ renderVal v ++ ", " ++ renderKvs (y :: xs)
end

/-- An observable invocation the coordinator makes: a pipeline stage call
through `run_pipeline_stage`, or a finalization/maintenance call in the
`except`/`finally` blocks. -/
inductive Event where
  | stageCall (stage : String)
  | finalizeCall (op : String)
deriving DecidableEq, Repr

/-- One entry of `results["stages"]`: the recorded output value and the
per-stage success flag. -/
structure StageEntry where
  output : PyVal
  success : Bool

/-- The `results` dict `run_full_pipeline` returns.  Timestamps are
modelled as ambient clock readings passed in by the caller. -/
structure RunReport where
  start_time : Nat
  stages : List (String × StageEntry)
  success : Bool
  error : Option String
  end_time : Option Nat

/-- The initialized collaborator modules, each bound method modelled as a
pure fallible function of its arguments (finalization entry points take no
arguments; their results are discarded by the coordinator). -/
structure Modules where
  process_source : PyVal → PyVal → Except String PyVal
  generate_script : PyVal → PyVal → Except String PyVal
  process_script_for_animation : PyVal → Except String PyVal
  process_script : PyVal → Except String PyVal
  merge_assets : PyVal → PyVal → PyVal → Except String PyVal
  generate_qc_report : PyVal → PyVal → Except String PyVal
  upload_all_platforms : PyVal → PyVal → Except String PyVal
  load_past_upload_data : Unit → Except String PyVal
  update_performance_metrics : Unit → Except String PyVal
  analyze_logs : Unit → Except String PyVal
  generate_diagnostic_report : Unit → Except String PyVal

/-- Model of `run_pipeline_stage`: invokes the bound collaborator call
exactly once; a falsy result is turned into
`RuntimeError(f"{stage_name} returned no results")`; a collaborator
exception is logged and re-raised.  The returned trace records the
invocation. -/
def run_pipeline_stage (stage : String) (func : Unit → Except String PyVal) :
    List Event × Except String PyVal :=
  ([Event.stageCall stage],
    match func () with
    | .ok result =>
      if result.truthy then .ok result
      else .error (stage ++ " returned no results")
    | .error e => .error e)

/-- The upload stage's recorded entry (main.py lines 181–184):
`output = {k: v is not None for k, v in upload_results.items()}` and
`success = any(upload_results.values())`. -/
def uploadEntry (kvs : List (String × PyVal)) : StageEntry :=
  { output := PyVal.dict (kvs.map fun kv => (kv.1, PyVal.bool (!kv.2.isNone))),
    success := kvs.any fun kv => kv.2.truthy }

/-- The body of `run_full_pipeline`'s `try:` block: the seven-stage
sequence, accumulating the trace of stage invocations, the
`results["stages"]` entries recorded so far, and the exception (if any)
that aborted the block.  Argument expressions such as
`voice_results["voiceover"]` are evaluated in source order, outside
`run_pipeline_stage`, so their exceptions abort the block without a stage
invocation being recorded. -/
def pipelineTry
    (process_source : PyVal → PyVal → Except String PyVal)
    (generate_script : PyVal → PyVal → Except String PyVal)
    (process_script_for_animation : PyVal → Except String PyVal)
    (process_script : PyVal → Except String PyVal)
    (merge_assets : PyVal → PyVal → PyVal → Except String PyVal)
    (generate_qc_report : PyVal → PyVal → Except String PyVal)
    (upload_all_platforms : PyVal → PyVal → Except String PyVal)
    (source_path source_type topic : PyVal) :
    List Event × List (String × StageEntry) × Option String :=
  let (e1, r1) := run_pipeline_stage "ingestion" fun _ =>
    process_source source_path source_type
  match r1 with
  | .error e => (e1, [], some e)
  | .ok ingested_data =>
  match pyGet ingested_data "metadata" with
  | .error e => (e1, [], some e)
  | .ok md1 =>
  match pyGet md1 "source" with
  | .error e => (e1, [], some e)
  | .ok out1 =>
  let st1 := [("ingestion", StageEntry.mk out1 true)]
  let (e2, r2) := run_pipeline_stage "script_generation" fun _ =>
    generate_script ingested_data topic
  match r2 with
  | .error e => (e1 ++ e2, st1, some e)
  | .ok script_data =>
  match pyGet script_data "metadata" with
  | .error e => (e1 ++ e2, st1, some e)
  | .ok md2 =>
  match pyGet md2 "source" with
  | .error e => (e1 ++ e2, st1, some e)
  | .ok out2 =>
  let st2 := st1 ++ [("script_generation", StageEntry.mk out2 true)]
  let (e3, r3) := run_pipeline_stage "animation" fun _ =>
    process_script_for_animation script_data
  match r3 with
  | .error e => (e1 ++ e2 ++ e3, st2, some e)
  | .ok animation_path =>
  let st3 := st2 ++ [("animation",
    StageEntry.mk (PyVal.str (renderVal animation_path)) true)]
  let (e4, r4) := run_pipeline_stage "voice_generation" fun _ =>
    process_script script_data
  match r4 with
  | .error e => (e1 ++ e2 ++ e3 ++ e4, st3, some e)
  | .ok voice_results =>
  match pyGet voice_results "voiceover" with
  | .error e => (e1 ++ e2 ++ e3 ++ e4, st3, some e)
  | .ok voiceover1 =>
  let st4 := st3 ++ [("voice_generation",
    StageEntry.mk (PyVal.str (renderVal voiceover1)) true)]
  match pyGet voice_results "voiceover" with
  | .error e => (e1 ++ e2 ++ e3 ++ e4, st4, some e)
  | .ok voiceover2 =>
  match pyDictGet voice_results "subtitles" with
  | .error e => (e1 ++ e2 ++ e3 ++ e4, st4, some e)
  | .ok subtitles =>
  let (e5, r5) := run_pipeline_stage "video_composition" fun _ =>
    merge_assets animation_path voiceover2 subtitles
  match r5 with
  | .error e => (e1 ++ e2 ++ e3 ++ e4 ++ e5, st4, some e)
  | .ok final_video_path =>
  let st5 := st4 ++ [("video_composition",
    StageEntry.mk (PyVal.str (renderVal final_video_path)) true)]
  match pyGet script_data "script" with
  | .error e => (e1 ++ e2 ++ e3 ++ e4 ++ e5, st5, some e)
  | .ok script_text =>
  let (e6, r6) := run_pipeline_stage "quality_control" fun _ =>
    generate_qc_report script_text final_video_path
  match r6 with
  | .error e => (e1 ++ e2 ++ e3 ++ e4 ++ e5 ++ e6, st5, some e)
  | .ok qc_report_path =>
  let st6 := st5 ++ [("quality_control",
    StageEntry.mk (PyVal.str (renderVal qc_report_path)) (!qc_report_path.isNone))]
  let (e7, r7) := run_pipeline_stage "upload" fun _ =>
    upload_all_platforms final_video_path script_data
  match r7 with
  | .error e => (e1 ++ e2 ++ e3 ++ e4 ++ e5 ++ e6 ++ e7, st6, some e)
  | .ok upload_results =>
  match upload_results with
  | PyVal.dict kvs =>
    (e1 ++ e2 ++ e3 ++ e4 ++ e5 ++ e6 ++ e7,
     st6 ++ [("upload", uploadEntry kvs)], Option.none)
  | _ => (e1 ++ e2 ++ e3 ++ e4 ++ e5 ++ e6 ++ e7, st6, some "AttributeError: items")

/-- Calls the `except Exception` handler makes after recording the error:
it attempts the two diagnostics entry points, in order, inside its own
`try/except` whose failure is only logged (so a raise in the first skips
the second but propagates nowhere). -/
def exceptEvents (m : Modules) (exc : Option String) : List Event :=
  match exc with
  | Option.none => []
  | some _ =>
    Event.finalizeCall "technician.analyze_logs" ::
      (match m.analyze_logs () with
       | .ok _ => [Event.finalizeCall "technician.generate_diagnostic_report"]
       | .error _ => [])

/-- Calls the `finally:` block makes: the four maintenance and analysis
entry points, in order, inside a `try/except` whose failure is only logged
(a raise stops the remaining calls but propagates nowhere). -/
def finallyEvents (m : Modules) : List Event :=
  Event.finalizeCall "content_manager.load_past_upload_data" ::
    (match m.load_past_upload_data () with
     | .error _ => []
     | .ok _ =>
       Event.finalizeCall "content_manager.update_performance_metrics" ::
         (match m.update_performance_metrics () with
          | .error _ => []
          | .ok _ =>
            Event.finalizeCall "technician.analyze_logs" ::
              (match m.analyze_logs () with
               | .error _ => []
               | .ok _ => [Event.finalizeCall "technician.generate_diagnostic_report"])))

/-- Model of `run_full_pipeline`: runs the `try:` block, then the
`except Exception` handler (records the error and attempts the two
diagnostics calls, their own failure caught and logged), then the
`finally:` block (sets `end_time`, then attempts the four maintenance and
analysis calls in order, any exception caught and logged), and returns the
completed `results` — it never raises to its caller. -/
def run_full_pipeline (m : Modules) (source_path source_type topic : PyVal)
    (t0 t1 : Nat) : List Event × RunReport :=
  let r := pipelineTry m.process_source m.generate_script
    m.process_script_for_animation m.process_script m.merge_assets
    m.generate_qc_report m.upload_all_platforms source_path source_type topic
  (r.1 ++ exceptEvents m r.2.2 ++ finallyEvents m,
   { start_time := t0, stages := r.2.1, success := r.2.2.isNone,
     error := r.2.2, end_time := some t1 })

/-- The fixed seven-stage sequence, in coordinator order. -/
def stageOrder : List String :=
  ["ingestion", "script_generation", "animation", "voice_generation",
   "video_composition", "quality_control", "upload"]

/-- Well-shaped collaborator behaviours for a fully successful run, used by
the concrete counterexamples and witnesses below. -/
def okModules : Modules where
  process_source := fun _ _ => .ok (PyVal.dict
    [("content", PyVal.str "text"),
     ("metadata", PyVal.dict
       [("source", PyVal.str "lesson.pdf"), ("source_type", PyVal.str "pdf")])])
  generate_script := fun _ _ => .ok (PyVal.dict
    [("script", PyVal.str "hello world"),
     ("metadata", PyVal.dict [("source", PyVal.str "lesson.pdf")])])
  process_script_for_animation := fun _ => .ok (PyVal.str "animation.mp4")
  process_script := fun _ => .ok (PyVal.dict
    [("voiceover", PyVal.str "voice.mp3"), ("subtitles", PyVal.str "subs.srt")])
  merge_assets := fun _ _ _ => .ok (PyVal.str "final.mp4")
  generate_qc_report := fun _ _ => .ok (PyVal.str "qc_report.json")
  upload_all_platforms := fun _ _ => .ok (PyVal.dict
    [("youtube", PyVal.dict [("id", PyVal.str "vid123")]), ("tiktok", PyVal.none)])
  load_past_upload_data := fun _ => .ok (PyVal.bool true)
  update_performance_metrics := fun _ => .ok (PyVal.bool true)
  analyze_logs := fun _ => .ok (PyVal.dict [("errors", PyVal.list [])])
  generate_diagnostic_report := fun _ => .ok (PyVal.list
    [PyVal.str "diagnostic.log", PyVal.str "upgrade_plan.md"])

/-- The same collaborators except quality control returns `None` (the QC
stage fails while every other stage succeeds). -/
def qcNoneModules : Modules :=
  { okModules with generate_qc_report := fun _ _ => .ok PyVal.none }

/-- The same collaborators except ingestion raises. -/
def ingFailModules : Modules :=
  { okModules with process_source := fun _ _ => .error "ingestion exploded" }

/-- The same collaborators except every per-platform upload outcome is
`None` (upload succeeds as a call, but no platform succeeded). -/
def uploadAllNoneModules : Modules :=
  { okModules with upload_all_platforms := fun _ _ => .ok (PyVal.dict
      [("youtube", PyVal.none), ("tiktok", PyVal.none), ("instagram", PyVal.none)]) }

theorem stageCall_not_mem_exceptEvents (m : Modules) (exc : Option String)
    (s : String) : Event.stageCall s ∉ exceptEvents m exc := by
  cases exc with
  | none => simp [exceptEvents]
  | some e =>
    cases h : m.analyze_logs () with
    | ok v => simp [exceptEvents, h]
    | error e2 => simp [exceptEvents, h]

theorem stageCall_not_mem_finallyEvents (m : Modules) (s : String) :
    Event.stageCall s ∉ finallyEvents m := by
  unfold finallyEvents
  cases m.load_past_upload_data () with
  | error e => simp
  | ok v =>
    cases m.update_performance_metrics () with
    | error e => simp
    | ok v2 =>
      cases m.analyze_logs () with
      | error e => simp
      | ok v3 => simp

theorem pipelineTry_qcFails
    (process_source generate_script : PyVal → PyVal → Except String PyVal)
    (process_script_for_animation process_script : PyVal → Except String PyVal)
    (merge_assets : PyVal → PyVal → PyVal → Except String PyVal)
    (generate_qc_report : PyVal → PyVal → Except String PyVal)
    (upload_all_platforms : PyVal → PyVal → Except String PyVal)
    (source_path source_type topic : PyVal)
    (hqc : ∀ s v, (∃ e, generate_qc_report s v = .error e)
        ∨ (∃ u, generate_qc_report s v = .ok u ∧ u.truthy = false)) :
    (pipelineTry process_source generate_script process_script_for_animation
        process_script merge_assets generate_qc_report upload_all_platforms
        source_path source_type topic).2.2.isSome = true
    ∧ Event.stageCall "upload" ∉ (pipelineTry process_source generate_script
        process_script_for_animation process_script merge_assets
        generate_qc_report upload_all_platforms source_path source_type topic).1
    ∧ ((pipelineTry process_source generate_script process_script_for_animation
        process_script merge_assets generate_qc_report upload_all_platforms
        source_path source_type topic).2.1).lookup "upload" = Option.none := by
  have hqc2 : ∀ s v, ∃ e, run_pipeline_stage "quality_control"
      (fun _ => generate_qc_report s v)
      = ([Event.stageCall "quality_control"], Except.error e) := by
    intro s v
    rcases hqc s v with ⟨e, he⟩ | ⟨u, hu, hf⟩
    · exact ⟨e, by simp [run_pipeline_stage, he]⟩
    · exact ⟨"quality_control" ++ " returned no results",
        by simp [run_pipeline_stage, hu, hf]⟩
  choose errQC herr using hqc2
  refine ⟨?_, ?_, ?_⟩ <;>
  · simp only [pipelineTry]
    simp only [herr]
    simp only [run_pipeline_stage]
    repeat' split
    all_goals first | rfl | decide | simp_all

/-- C1 counterexample: a concrete run in which every stage's collaborator
succeeds except quality control, whose collaborator returns `None`.
Contrary to the claim, the run's overall success flag is `false`, the upload
stage is never invoked, and the terminal error is the QC stage's
`RuntimeError` — quality control's failure is fatal, not advisory. -/
theorem qc_failure_fatal_counterexample :
    (run_full_pipeline qcNoneModules (PyVal.str "lesson.pdf") (PyVal.str "pdf")
        PyVal.none 0 1).2.success = false
    ∧ Event.stageCall "upload" ∉ (run_full_pipeline qcNoneModules
        (PyVal.str "lesson.pdf") (PyVal.str "pdf") PyVal.none 0 1).1
    ∧ (run_full_pipeline qcNoneModules (PyVal.str "lesson.pdf") (PyVal.str "pdf")
        PyVal.none 0 1).2.error = some "quality_control returned no results" := by
  refine ⟨rfl, ?_, rfl⟩
  decide

/-- C1 (amended): when the quality_control collaborator fails — it raises,
or returns a falsy result (of which `None` is one case) — the failure is
fatal exactly like any other stage's: overall success is `false`, the
upload stage is never invoked, and no upload entry is recorded. -/
theorem qc_failure_fatal (m : Modules) (source_path source_type topic : PyVal)
    (t0 t1 : Nat)
    (hqc : ∀ s v, (∃ e, m.generate_qc_report s v = .error e)
        ∨ (∃ u, m.generate_qc_report s v = .ok u ∧ u.truthy = false)) :
    (run_full_pipeline m source_path source_type topic t0 t1).2.success = false
    ∧ Event.stageCall "upload"
        ∉ (run_full_pipeline m source_path source_type topic t0 t1).1
    ∧ ((run_full_pipeline m source_path source_type topic t0 t1).2.stages).lookup
        "upload" = Option.none := by
  obtain ⟨hsome, hmem, hlook⟩ := pipelineTry_qcFails m.process_source
    m.generate_script m.process_script_for_animation m.process_script
    m.merge_assets m.generate_qc_report m.upload_all_platforms
    source_path source_type topic hqc
  refine ⟨?_, ?_, ?_⟩
  · simp only [run_full_pipeline]
    rcases hr : (pipelineTry m.process_source m.generate_script
      m.process_script_for_animation m.process_script m.merge_assets
      m.generate_qc_report m.upload_all_platforms
      source_path source_type topic).2.2 with _ | e
    · rw [hr] at hsome; simp at hsome
    · simp [hr]
  · simp only [run_full_pipeline, List.mem_append]
    rintro ((h | h) | h)
    · exact hmem h
    · exact stageCall_not_mem_exceptEvents m _ _ h
    · exact stageCall_not_mem_finallyEvents m _ h
  · simpa only [run_full_pipeline] using hlook

theorem qc_failure_fatal_witness :
    (∀ s v, (∃ e, qcNoneModules.generate_qc_report s v = .error e)
      ∨ (∃ u, qcNoneModules.generate_qc_report s v = .ok u ∧ u.truthy = false))
    ∧ ((run_full_pipeline qcNoneModules (PyVal.str "a") (PyVal.str "pdf")
          PyVal.none 3 4).2.success = false
      ∧ Event.stageCall "upload" ∉ (run_full_pipeline qcNoneModules
          (PyVal.str "a") (PyVal.str "pdf") PyVal.none 3 4).1
      ∧ ((run_full_pipeline qcNoneModules (PyVal.str "a") (PyVal.str "pdf")
          PyVal.none 3 4).2.stages).lookup "upload" = Option.none) :=
  ⟨fun _ _ => Or.inr ⟨PyVal.none, rfl, rfl⟩,
   qc_failure_fatal qcNoneModules (PyVal.str "a") (PyVal.str "pdf")
     PyVal.none 3 4 (fun _ _ => Or.inr ⟨PyVal.none, rfl, rfl⟩)⟩

theorem pipelineTry_stage_keys_prefix
    (process_source generate_script : PyVal → PyVal → Except String PyVal)
    (process_script_for_animation process_script : PyVal → Except String PyVal)
    (merge_assets : PyVal → PyVal → PyVal → Except String PyVal)
    (generate_qc_report : PyVal → PyVal → Except String PyVal)
    (upload_all_platforms : PyVal → PyVal → Except String PyVal)
    (source_path source_type topic : PyVal) :
    ∃ n, ((pipelineTry process_source generate_script
        process_script_for_animation process_script merge_assets
        generate_qc_report upload_all_platforms source_path source_type
        topic).2.1).map Prod.fst = stageOrder.take n := by
  simp only [pipelineTry, run_pipeline_stage]
  repeat' split
  all_goals first
    | exact ⟨0, rfl⟩ | exact ⟨1, rfl⟩ | exact ⟨2, rfl⟩ | exact ⟨3, rfl⟩
    | exact ⟨4, rfl⟩ | exact ⟨5, rfl⟩ | exact ⟨6, rfl⟩ | exact ⟨7, rfl⟩

/-- C2 counterexample: a concrete run whose ingestion collaborator raises.
Contrary to the claim, the returned report's stage mapping is empty — it
has no entry at all, for the failed stage or the six unattempted ones. -/
theorem stage_mapping_not_total_counterexample :
    (run_full_pipeline ingFailModules (PyVal.str "lesson.pdf") (PyVal.str "pdf")
        PyVal.none 0 1).2.stages = []
    ∧ ((run_full_pipeline ingFailModules (PyVal.str "lesson.pdf")
        (PyVal.str "pdf") PyVal.none 0 1).2.stages).lookup "ingestion"
        = Option.none
    ∧ ((run_full_pipeline ingFailModules (PyVal.str "lesson.pdf")
        (PyVal.str "pdf") PyVal.none 0 1).2.stages).lookup "upload"
        = Option.none :=
  ⟨rfl, rfl, rfl⟩

/-- C2 (amended): the report's stage mapping is always a prefix of the
fixed seven-stage order — it holds exactly the stages recorded before the
run stopped, in order; a stage that failed or was never reached has no
entry (rather than a total mapping with "skipped" markers). -/
theorem stage_mapping_is_order_prefix (m : Modules)
    (source_path source_type topic : PyVal) (t0 t1 : Nat) :
    ∃ n, (((run_full_pipeline m source_path source_type topic t0 t1).2.stages).map
        Prod.fst) = stageOrder.take n := by
  simpa only [run_full_pipeline] using pipelineTry_stage_keys_prefix
    m.process_source m.generate_script m.process_script_for_animation
    m.process_script m.merge_assets m.generate_qc_report
    m.upload_all_platforms source_path source_type topic

/-- C3: the coordinator always returns a completed report — the end time is
set, finalization is always entered (the first maintenance call appears in
the trace) whether the run succeeded or failed, and the report's success
flag, terminal error and stage mapping are independent of the behaviour
(including raising) of every finalization collaborator. In the embedding
`run_full_pipeline` is a total function: no exception escapes to the
caller. -/
theorem finalization_isolated_report_total (m m' : Modules)
    (source_path source_type topic : PyVal) (t0 t1 : Nat)
    (h1 : m.process_source = m'.process_source)
    (h2 : m.generate_script = m'.generate_script)
    (h3 : m.process_script_for_animation = m'.process_script_for_animation)
    (h4 : m.process_script = m'.process_script)
    (h5 : m.merge_assets = m'.merge_assets)
    (h6 : m.generate_qc_report = m'.generate_qc_report)
    (h7 : m.upload_all_platforms = m'.upload_all_platforms) :
    (run_full_pipeline m source_path source_type topic t0 t1).2.end_time = some t1
    ∧ Event.finalizeCall "content_manager.load_past_upload_data"
        ∈ (run_full_pipeline m source_path source_type topic t0 t1).1
    ∧ (run_full_pipeline m source_path source_type topic t0 t1).2.success
        = (run_full_pipeline m' source_path source_type topic t0 t1).2.success
    ∧ (run_full_pipeline m source_path source_type topic t0 t1).2.error
        = (run_full_pipeline m' source_path source_type topic t0 t1).2.error
    ∧ (run_full_pipeline m source_path source_type topic t0 t1).2.stages
        = (run_full_pipeline m' source_path source_type topic t0 t1).2.stages := by
  have hsame : pipelineTry m.process_source m.generate_script
      m.process_script_for_animation m.process_script m.merge_assets
      m.generate_qc_report m.upload_all_platforms source_path source_type topic
      = pipelineTry m'.process_source m'.generate_script
      m'.process_script_for_animation m'.process_script m'.merge_assets
      m'.generate_qc_report m'.upload_all_platforms source_path source_type
      topic := by
    rw [h1, h2, h3, h4, h5, h6, h7]
  refine ⟨rfl, ?_, ?_, ?_, ?_⟩
  · simp only [run_full_pipeline]
    exact List.mem_append_right _
      (by rw [finallyEvents]; exact List.mem_cons_self _ _)
  · simp only [run_full_pipeline, hsame]
  · simp only [run_full_pipeline, hsame]
  · simp only [run_full_pipeline, hsame]

/-- Collaborators identical to `okModules` on every pipeline stage but
whose finalization entry points raise. -/
def noisyFinalModules : Modules :=
  { okModules with
      load_past_upload_data := fun _ => .error "disk full"
      analyze_logs := fun _ => .error "log directory unreadable" }

theorem finalization_isolated_report_total_witness :
    (run_full_pipeline okModules (PyVal.str "a") (PyVal.str "pdf")
        PyVal.none 0 9).2.end_time = some 9
    ∧ Event.finalizeCall "content_manager.load_past_upload_data"
        ∈ (run_full_pipeline okModules (PyVal.str "a") (PyVal.str "pdf")
            PyVal.none 0 9).1
    ∧ (run_full_pipeline okModules (PyVal.str "a") (PyVal.str "pdf")
          PyVal.none 0 9).2.success
        = (run_full_pipeline noisyFinalModules (PyVal.str "a") (PyVal.str "pdf")
            PyVal.none 0 9).2.success
    ∧ (run_full_pipeline okModules (PyVal.str "a") (PyVal.str "pdf")
          PyVal.none 0 9).2.error
        = (run_full_pipeline noisyFinalModules (PyVal.str "a") (PyVal.str "pdf")
            PyVal.none 0 9).2.error
    ∧ (run_full_pipeline okModules (PyVal.str "a") (PyVal.str "pdf")
          PyVal.none 0 9).2.stages
        = (run_full_pipeline noisyFinalModules (PyVal.str "a") (PyVal.str "pdf")
            PyVal.none 0 9).2.stages :=
  finalization_isolated_report_total okModules noisyFinalModules
    (PyVal.str "a") (PyVal.str "pdf") PyVal.none 0 9 rfl rfl rfl rfl rfl rfl rfl

/-- C9: in a run where every stage call returns a truthy, well-shaped
result and the upload call returns a (non-empty) per-platform mapping in
which every outcome is `None`, the report's overall success flag is still
`true` — it is set unconditionally at the end of the `try:` block — while
the upload stage's own recorded success flag is `false`.  The overall flag
does not depend on the upload stage's recorded success field. -/
theorem overall_success_ignores_upload_flag
    (m : Modules) (source_path source_type topic : PyVal) (t0 t1 : Nat)
    (iv md1 o1 sv md2 o2 scr av vv vo subs fv qv : PyVal)
    (kvs : List (String × PyVal))
    (h1 : m.process_source = fun _ _ => .ok iv) (hiv : iv.truthy = true)
    (him : pyGet iv "metadata" = .ok md1) (hs1 : pyGet md1 "source" = .ok o1)
    (h2 : m.generate_script = fun _ _ => .ok sv) (hsv : sv.truthy = true)
    (hm2 : pyGet sv "metadata" = .ok md2) (hs2 : pyGet md2 "source" = .ok o2)
    (hscript : pyGet sv "script" = .ok scr)
    (h3 : m.process_script_for_animation = fun _ => .ok av) (hav : av.truthy = true)
    (h4 : m.process_script = fun _ => .ok vv) (hvv : vv.truthy = true)
    (hvo : pyGet vv "voiceover" = .ok vo)
    (hsub : pyDictGet vv "subtitles" = .ok subs)
    (h5 : m.merge_assets = fun _ _ _ => .ok fv) (hfv : fv.truthy = true)
    (h6 : m.generate_qc_report = fun _ _ => .ok qv) (hqv : qv.truthy = true)
    (h7 : m.upload_all_platforms = fun _ _ => .ok (PyVal.dict kvs))
    (hk : kvs ≠ []) (hall : ∀ kv ∈ kvs, kv.2 = PyVal.none) :
    (run_full_pipeline m source_path source_type topic t0 t1).2.success = true
    ∧ ("upload", uploadEntry kvs)
        ∈ (run_full_pipeline m source_path source_type topic t0 t1).2.stages
    ∧ (uploadEntry kvs).success = false := by
  have hdt : (PyVal.dict kvs).truthy = true := by
    cases kvs with
    | nil => exact absurd rfl hk
    | cons a l => simp [PyVal.truthy]
  refine ⟨?_, ?_, ?_⟩
  · simp [run_full_pipeline, pipelineTry, run_pipeline_stage, h1, h2, h3, h4,
      h5, h6, h7, him, hs1, hm2, hs2, hscript, hvo, hsub, hiv, hsv, hav, hvv,
      hfv, hqv, hdt]
  · simp [run_full_pipeline, pipelineTry, run_pipeline_stage, h1, h2, h3, h4,
      h5, h6, h7, him, hs1, hm2, hs2, hscript, hvo, hsub, hiv, hsv, hav, hvv,
      hfv, hqv, hdt]
  · refine List.any_eq_false.mpr ?_
    intro kv hkv
    rw [hall kv hkv]
    simp [PyVal.truthy]

theorem overall_success_ignores_upload_flag_witness :
    (run_full_pipeline uploadAllNoneModules (PyVal.str "a") (PyVal.str "pdf")
        PyVal.none 0 1).2.success = true
    ∧ ("upload", uploadEntry
        [("youtube", PyVal.none), ("tiktok", PyVal.none), ("instagram", PyVal.none)])
        ∈ (run_full_pipeline uploadAllNoneModules (PyVal.str "a")
            (PyVal.str "pdf") PyVal.none 0 1).2.stages
    ∧ (uploadEntry
        [("youtube", PyVal.none), ("tiktok", PyVal.none), ("instagram", PyVal.none)]).success
        = false :=
  overall_success_ignores_upload_flag uploadAllNoneModules
    (PyVal.str "a") (PyVal.str "pdf") PyVal.none 0 1
    (PyVal.dict
      [("content", PyVal.str "text"),
       ("metadata", PyVal.dict
         [("source", PyVal.str "lesson.pdf"), ("source_type", PyVal.str "pdf")])])
    (PyVal.dict [("source", PyVal.str "lesson.pdf"), ("source_type", PyVal.str "pdf")])
    (PyVal.str "lesson.pdf")
    (PyVal.dict
      [("script", PyVal.str "hello world"),
       ("metadata", PyVal.dict [("source", PyVal.str "lesson.pdf")])])
    (PyVal.dict [("source", PyVal.str "lesson.pdf")])
    (PyVal.str "lesson.pdf")
    (PyVal.str "hello world")
    (PyVal.str "animation.mp4")
    (PyVal.dict [("voiceover", PyVal.str "voice.mp3"), ("subtitles", PyVal.str "subs.srt")])
    (PyVal.str "voice.mp3")
    (PyVal.str "subs.srt")
    (PyVal.str "final.mp4")
    (PyVal.str "qc_report.json")
    [("youtube", PyVal.none), ("tiktok", PyVal.none), ("instagram", PyVal.none)]
    rfl rfl rfl rfl rfl rfl rfl rfl rfl rfl rfl rfl rfl rfl rfl rfl rfl rfl rfl rfl
    (List.cons_ne_nil _ _)
    (by intro kv hkv
        simp only [List.mem_cons, List.not_mem_nil, or_false] at hkv
        rcases hkv with rfl | rfl | rfl <;> rfl)

/-! ## Upload fan-out — `Uploader.upload_all_platforms` (src/uploader/upload.py) -/

/-- Python dict assignment `results[k] = v` on an insertion-ordered
association list. -/
def dictSet (d : List (String × PyVal)) (k : String) (v : PyVal) :
    List (String × PyVal) :=
  if d.any fun kv => kv.1 == k then
    d.map fun kv => if kv.1 == k then (kv.1, v) else kv
  else d ++ [(k, v)]

/-- One iteration of the platform loop: dispatch on the platform name,
store that platform's outcome (the value `upload_to_<platform>` returned,
`None` and a warning for an unknown platform). -/
def uploadStep (upload_to_youtube upload_to_tiktok upload_to_instagram : PyVal)
    (results : List (String × PyVal)) (platform : String) :
    List (String × PyVal) :=
  if platform = "youtube" then dictSet results "youtube" upload_to_youtube
  else if platform = "tiktok" then dictSet results "tiktok" upload_to_tiktok
  else if platform = "instagram" then dictSet results "instagram" upload_to_instagram
  else dictSet results platform PyVal.none

/-- Model of `upload_all_platforms`: a falsy `platforms` argument selects
the default platform list; each platform is dispatched independently and
its outcome (the per-platform upload's returned value, which is `None` on
that platform's failure — the per-platform upload methods catch all their
own exceptions) is collected into the results dict. -/
def upload_all_platforms
    (upload_to_youtube upload_to_tiktok upload_to_instagram : PyVal)
    (platforms : List String) : List (String × PyVal) :=
  let ps := if platforms.isEmpty then ["youtube", "tiktok", "instagram"]
            else platforms
  ps.foldl (uploadStep upload_to_youtube upload_to_tiktok upload_to_instagram) []

theorem mem_keys_dictSet (d : List (String × PyVal)) (k : String) (v : PyVal)
    (p : String) :
    p ∈ (dictSet d k v).map Prod.fst ↔ p = k ∨ p ∈ d.map Prod.fst := by
  by_cases h : d.any fun kv => kv.1 == k
  · simp only [dictSet, if_pos h, List.map_map]
    have hcomp : (Prod.fst ∘ fun kv : String × PyVal =>
        if kv.1 == k then (kv.1, v) else kv) = Prod.fst := by
      funext kv
      simp only [Function.comp_apply]
      split <;> rfl
    rw [hcomp]
    constructor
    · exact Or.inr
    · rintro (rfl | hp)
      · rcases List.any_eq_true.mp h with ⟨kv, hkv, hbeq⟩
        have : kv.1 = p := by simpa using hbeq
        exact this ▸ List.mem_map_of_mem Prod.fst hkv
      · exact hp
  · simp only [dictSet, if_neg h, List.map_append]
    simp [or_comm]

theorem mem_keys_uploadStep
    (upload_to_youtube upload_to_tiktok upload_to_instagram : PyVal)
    (results : List (String × PyVal)) (p q : String)
    (h : p = q ∨ p ∈ results.map Prod.fst) :
    p ∈ (uploadStep upload_to_youtube upload_to_tiktok upload_to_instagram
        results q).map Prod.fst := by
  unfold uploadStep
  rcases h with rfl | hp
  · split_ifs with hq1 hq2 hq3
    · exact (mem_keys_dictSet _ _ _ _).mpr (Or.inl hq1)
    · exact (mem_keys_dictSet _ _ _ _).mpr (Or.inl hq2)
    · exact (mem_keys_dictSet _ _ _ _).mpr (Or.inl hq3)
    · exact (mem_keys_dictSet _ _ _ _).mpr (Or.inl rfl)
  · split_ifs with hq1 hq2 hq3 <;>
      exact (mem_keys_dictSet _ _ _ _).mpr (Or.inr hp)

theorem mem_keys_upload_foldl
    (upload_to_youtube upload_to_tiktok upload_to_instagram : PyVal) :
    ∀ (ps : List String) (acc : List (String × PyVal)) (p : String),
      (p ∈ ps ∨ p ∈ acc.map Prod.fst) →
      p ∈ (ps.foldl (uploadStep upload_to_youtube upload_to_tiktok
          upload_to_instagram) acc).map Prod.fst := by
  intro ps
  induction ps with
  | nil =>
    intro acc p h
    rcases h with h | h
    · cases h
    · simpa using h
  | cons q rest ih =>
    intro acc p h
    simp only [List.foldl_cons]
    rcases h with h | h
    · rcases List.mem_cons.mp h with rfl | hrest
      · exact ih _ p (Or.inr (mem_keys_uploadStep _ _ _ _ _ _ (Or.inl rfl)))
      · exact ih _ p (Or.inl hrest)
    · exact ih _ p (Or.inr (mem_keys_uploadStep _ _ _ _ _ _ (Or.inr h)))

theorem truthy_not_isNone (v : PyVal) (h : v.truthy = true) :
    v.isNone = false := by
  cases v <;> simp_all [PyVal.truthy, PyVal.isNone]

/-- C5: the upload stage's recorded success flag is the disjunction over
the per-platform outcomes — `true` exactly when at least one platform's
outcome is non-absent (each per-platform upload returns `None` on failure
and a truthy response dict on success) — and every platform's individual
outcome, `None` included, is retained: the stage output maps every key of
the upload results to its presence bit, and `upload_all_platforms` records
an entry for every requested platform. -/
theorem upload_or_over_platforms (kvs : List (String × PyVal))
    (h : ∀ kv ∈ kvs, kv.2 = PyVal.none ∨ kv.2.truthy = true)
    (upload_to_youtube upload_to_tiktok upload_to_instagram : PyVal)
    (platforms : List String) (p : String)
    (hp : p ∈ (if platforms.isEmpty then ["youtube", "tiktok", "instagram"]
               else platforms)) :
    ((uploadEntry kvs).success = true ↔ ∃ kv ∈ kvs, kv.2.isNone = false)
    ∧ (uploadEntry kvs).output
        = PyVal.dict (kvs.map fun kv => (kv.1, PyVal.bool (!kv.2.isNone)))
    ∧ p ∈ (upload_all_platforms upload_to_youtube upload_to_tiktok
        upload_to_instagram platforms).map Prod.fst := by
  refine ⟨?_, rfl, ?_⟩
  · constructor
    · intro hs
      rcases List.any_eq_true.mp hs with ⟨kv, hkv, ht⟩
      exact ⟨kv, hkv, truthy_not_isNone _ ht⟩
    · rintro ⟨kv, hkv, hne⟩
      rcases h kv hkv with hnone | ht
      · rw [hnone] at hne
        simp [PyVal.isNone] at hne
      · exact List.any_eq_true.mpr ⟨kv, hkv, ht⟩
  · exact mem_keys_upload_foldl _ _ _ _ [] p (Or.inl hp)

theorem upload_or_over_platforms_witness :
    ((uploadEntry [("youtube", PyVal.dict [("id", PyVal.str "x")]),
        ("tiktok", PyVal.none)]).success = true
      ↔ ∃ kv ∈ [("youtube", PyVal.dict [("id", PyVal.str "x")]),
          ("tiktok", PyVal.none)], kv.2.isNone = false)
    ∧ (uploadEntry [("youtube", PyVal.dict [("id", PyVal.str "x")]),
        ("tiktok", PyVal.none)]).output
        = PyVal.dict ([("youtube", PyVal.dict [("id", PyVal.str "x")]),
            ("tiktok", PyVal.none)].map fun kv => (kv.1, PyVal.bool (!kv.2.isNone)))
    ∧ "myspace" ∈ (upload_all_platforms (PyVal.dict [("id", PyVal.str "x")])
        PyVal.none PyVal.none ["tiktok", "myspace"]).map Prod.fst :=
  upload_or_over_platforms
    [("youtube", PyVal.dict [("id", PyVal.str "x")]), ("tiktok", PyVal.none)]
    (by intro kv hkv
        simp only [List.mem_cons, List.not_mem_nil, or_false] at hkv
        rcases hkv with rfl | rfl
        · right; rfl
        · left; rfl)
    (PyVal.dict [("id", PyVal.str "x")]) PyVal.none PyVal.none
    ["tiktok", "myspace"] "myspace" (by decide)

/-! ## Diagnostics Aggregator — `TechnicianAgent` (src/technician_agent/technician.py)

Log lines are modelled as strings; the parser's substring tests
(`'"level": "ERROR"' in line`, `"duration_sec" in line`) are modelled
exactly.  The JSON payload of a line's last `|`-segment is parsed by an
abstract `jsonLoads` function whose result distinguishes the three cases
the source distinguishes: a JSON object (flat, string-keyed, with string
or number values), a `json.JSONDecodeError`, and decodable non-object
JSON — the last is not caught by the `except json.JSONDecodeError`
handlers, so the dict accesses raise (`AttributeError` from
`error_data.get`/`perf_data.get`, `TypeError` from `in` on a non-container)
and the remaining lines of that file are skipped (caught only by
`_parse_log_file`'s per-file handler, which keeps the partial data). -/

/-- Bool-valued prefix test on character lists. -/
def isPrefixChars : List Char → List Char → Bool
  | [], _ => true
  | _ :: _, [] => false
  | a :: as, b :: bs => a == b && isPrefixChars as bs

/-- Bool-valued contiguous-substring test on character lists. -/
def isInfixChars (p : List Char) : List Char → Bool
  | [] => isPrefixChars p []
  | c :: rest => isPrefixChars p (c :: rest) || isInfixChars p rest

/-- Python's `pat in line` substring test. -/
def strContains (line pat : String) : Bool :=
  isInfixChars pat.data line.data

/-- A JSON scalar as found in the writer's metadata payloads. -/
inductive JVal where
  | str (s : String)
  | num (q : ℚ)
deriving DecidableEq, Repr

/-- A flat string-keyed JSON object (a parsed metadata payload). -/
abbrev JObj := List (String × JVal)

/-- Python `obj.get(k, d)` on a parsed JSON object. -/
def jGet (o : JObj) (k : String) (d : JVal) : JVal :=
  (o.lookup k).getD d

/-- Whether a JSON scalar is a string (a string-typed `duration_sec` makes
the pandas mean raise in `_analyze_performance`). -/
def JVal.isStr : JVal → Bool
  | .str _ => true
  | .num _ => false

/-- The numeric value of a JSON scalar; applied only to duration samples
already checked (by `analyzePerformanceRaw`'s dtype test) not to be
strings, so the string case is unreachable where this is used. -/
def jNum : JVal → ℚ
  | .num q => q
  | .str _ => 0

/-- What `json.loads` yields on a line's last segment, as the source's
control flow distinguishes it: a JSON object, a `json.JSONDecodeError`, or
valid non-object JSON.  The last raises when the code touches it as a
dict; `durationRaises` records whether, in the `duration_sec` branch, the
payload's type makes `"duration_sec" in perf_data` / `perf_data.get`
raise (`TypeError` on a number/bool/null, `AttributeError` on a string
containing the key) or merely yields `False` (a list, or a string without
the key). -/
inductive JParse where
  | obj (o : JObj)
  | failed
  | nonobj (durationRaises : Bool)

/-- An entry of `log_data["errors"]` as `_parse_log_file` builds it. -/
structure LogErrRec where
  module : JVal
  message : JVal
  timestamp : JVal
deriving DecidableEq, Repr

/-- An entry of `log_data["performance"]` exactly as `_parse_log_file`
builds it: the duration keeps whatever JSON scalar the payload carried. -/
structure RawPerfRec where
  module : JVal
  operation : JVal
  duration : JVal
deriving DecidableEq, Repr

/-- A performance sample with its numeric duration, the shape on which the
pandas mean is well defined. -/
structure PerfRec where
  module : JVal
  operation : JVal
  duration : ℚ
deriving DecidableEq, Repr

/-- The `log_data` accumulator of `_parse_log_file`. -/
structure LogData where
  errors : List LogErrRec
  warnings : List String
  performance : List RawPerfRec
deriving DecidableEq, Repr

/-- The level marker `_parse_log_file` greps for in a line to classify it
as an ERROR line. -/
def errMarker : String := "\"level\": \"ERROR\""

/-- The level marker `_parse_log_file` greps for to classify a WARNING
line. -/
def warnMarker : String := "\"level\": \"WARNING\""

/-- The substring whose presence triggers the performance-data branch. -/
def durMarker : String := "duration_sec"

/-- Python `line.split('|')[-1]`, the segment handed to `json.loads`: the
text after the last `|`, or the whole line when it has none. -/
def lastSegment (line : String) : String :=
  String.mk (line.data.foldl (fun acc c => if c = '|' then [] else acc ++ [c]) [])

/-- One iteration of `_parse_log_file`'s per-line loop: the ERROR/WARNING
classification (a `json.JSONDecodeError` on an ERROR line falls back to
recording the raw line; a decodable non-object payload makes
`error_data.get` raise `AttributeError`, uncaught), then the independent
`duration_sec` branch (a `json.JSONDecodeError` there is skipped with
`continue`; a non-object payload raises when its type makes the
membership test or `perf_data.get` raise).  An `Except.error` result is
the uncaught exception: it carries the data built so far, and the
per-file handler stops scanning the rest of the file with it. -/
def parseLineStep (jsonLoads : String → JParse) (acc : LogData)
    (line : String) : Except LogData LogData :=
  match (if strContains line errMarker then
      match jsonLoads (lastSegment line) with
      | .obj o =>
        Except.ok { acc with errors := acc.errors ++
            [⟨jGet o "name" (JVal.str "unknown"),
              jGet o "error" (JVal.str "unknown"),
              jGet o "timestamp" (JVal.str "")⟩] }
      | .failed =>
        Except.ok { acc with errors := acc.errors ++
            [⟨JVal.str "unknown", JVal.str line.trim, JVal.str ""⟩] }
      | .nonobj _ => Except.error acc
    else if strContains line warnMarker then
      Except.ok { acc with warnings := acc.warnings ++ [line.trim] }
    else Except.ok acc) with
  | Except.error a => Except.error a
  | Except.ok acc1 =>
    if strContains line durMarker then
      match jsonLoads (lastSegment line) with
      | .obj o =>
        match o.lookup "duration_sec" with
        | some d =>
          Except.ok { acc1 with performance := acc1.performance ++
              [⟨jGet o "name" (JVal.str "unknown"),
                jGet o "operation" (JVal.str "unknown"), d⟩] }
        | Option.none => Except.ok acc1
      | .failed => Except.ok acc1
      | .nonobj true => Except.error acc1
      | .nonobj false => Except.ok acc1
    else Except.ok acc1

/-- The per-line loop of `_parse_log_file`: an uncaught exception from a
line stops the loop, and the per-file `except` keeps the data built so
far. -/
def parseLinesGo (jsonLoads : String → JParse) :
    List String → LogData → LogData
  | [], acc => acc
  | line :: rest, acc =>
    match parseLineStep jsonLoads acc line with
    | Except.ok acc1 => parseLinesGo jsonLoads rest acc1
    | Except.error a => a

/-- The scan of one file's lines from an empty `log_data`. -/
def parseLines (jsonLoads : String → JParse) (lines : List String) :
    LogData :=
  parseLinesGo jsonLoads lines ⟨[], [], []⟩

/-- Model of `_parse_log_file`: a file that cannot be opened (`none`) has
its error logged and yields the empty `log_data`. -/
def parseLogFile (jsonLoads : String → JParse)
    (file : Option (List String)) : LogData :=
  match file with
  | some lines => parseLines jsonLoads lines
  | Option.none => ⟨[], [], []⟩

/-- Componentwise extension of one `log_data` by another, as
`analyze_logs` extends `all_log_data` file by file. -/
def mergeLogData (a b : LogData) : LogData :=
  ⟨a.errors ++ b.errors, a.warnings ++ b.warnings,
   a.performance ++ b.performance⟩

/-- A parsed quality-control report, reduced to the `summary` fields
`analyze_logs` reads (with their `.get` defaults); a file whose load or
parse raises is `none` and is skipped with a warning. -/
structure QcRep where
  status : Option String
  critical_issues : ℚ
  overall_score : ℚ
deriving DecidableEq, Repr

/-- An entry of the findings' `qc_issues`. -/
structure QCFinding where
  source : String
  issues : ℚ
  score : ℚ
deriving DecidableEq, Repr

/-- The QC-report loop of `analyze_logs`: only reports whose summary
status is `needs_revision` contribute; unparseable files are skipped. -/
def qcIssues (files : List (String × Option QcRep)) : List QCFinding :=
  files.foldl (fun acc f =>
    match f.2 with
    | Option.none => acc
    | some r =>
      if r.status = some "needs_revision" then
        acc ++ [⟨f.1, r.critical_issues, r.overall_score⟩]
      else acc) []

/-- The dependency environment `_check_dependencies` probes: which modules
import, the `ImportError` message for those that do not, and the stderr
lines of a failing `pip check` (`none` when `pip check` passes or itself
raises). -/
structure DepEnv where
  importable : String → Bool
  importMessage : String → String
  pipConflictLines : Option (List String)

/-- The fixed list of required external bindings. -/
def requiredModules : List String :=
  ["pytesseract", "ffmpeg", "manimgl", "whisper", "openai", "elevenlabs",
   "svgwrite"]

/-- The `config.tool_alternatives` table of the technician configuration. -/
def toolAlternatives : List (String × List String) :=
  [("pytesseract", ["google-cloud-vision", "easyocr", "paddleocr"]),
   ("ffmpeg", ["opencv", "moviepy"]),
   ("manim", ["blender", "after-effects-api"]),
   ("whisper", ["google-speech-to-text", "azure-speech"])]

/-- An entry of the findings' `dependency_issues`. -/
structure DepIssue where
  module : String
  issue : String
  message : String
  alternatives : List String
deriving DecidableEq, Repr

/-- Model of `_check_dependencies`. -/
def checkDependencies (env : DepEnv) : List DepIssue :=
  (requiredModules.foldl (fun issues mname =>
    if env.importable mname then issues
    else issues ++ [⟨mname, "missing", env.importMessage mname,
      (toolAlternatives.lookup mname).getD []⟩]) [])
  ++ (match env.pipConflictLines with
      | some ls => ls.map fun l =>
          ⟨"pip_conflict", "dependency_conflict", l.trim, []⟩
      | Option.none => [])

/-- An entry of the findings' `hardware_issues`. -/
structure HwIssue where
  issue : String
  message : String
  severity : String
deriving DecidableEq, Repr

/-- The technician configuration's `hardware_requirements["gpu_recommended"]`. -/
def gpuRecommended : Bool := true

/-- Model of `_check_hardware` (a placeholder driven by configuration). -/
def checkHardware : List HwIssue :=
  if !gpuRecommended then
    [⟨"hardware_limitation",
      "GPU acceleration recommended for better performance", "warning"⟩]
  else []

/-- The `config.expected_timings` benchmark table. -/
def expectedTimings : List (String × ℚ) :=
  [("ingestion", 30), ("script_generation", 60), ("animation", 120),
   ("voice_generation", 30), ("video_composition", 60)]

/-- An entry of the findings' `performance_issues`. -/
structure PerfIssue where
  module : JVal
  actual_time : ℚ
  expected_time : ℚ
  issue : String
deriving DecidableEq, Repr

/-- Python `config.expected_timings.get(module, 0)`; the table has only
string keys, so a numeric group key gets the default 0. -/
def benchmarkOf : JVal → ℚ
  | .str s => (expectedTimings.lookup s).getD 0
  | .num _ => 0

/-- The distinct group keys of the performance samples (pandas
`groupby("module")`; pandas sorts the keys, but no property below depends
on the order of the issue list). -/
def groupKeys (perf : List PerfRec) : List JVal :=
  (perf.map (·.module)).dedup

/-- The duration samples of one group. -/
def groupDurations (perf : List PerfRec) (m : JVal) : List ℚ :=
  perf.filterMap fun r => if r.module = m then some r.duration else none

/-- The group's mean duration (`none` when the stage has no samples). -/
def groupMean (perf : List PerfRec) (m : JVal) : Option ℚ :=
  match groupDurations perf m with
  | [] => Option.none
  | ds => some (ds.sum / (ds.length : ℚ))

/-- Model of `_analyze_performance`: a stage is flagged exactly when its
benchmark is non-falsy and its observed mean exceeds 1.5x the benchmark
(`if expected and avg_time > expected * 1.5`). -/
def analyzePerformance (perf : List PerfRec) : List PerfIssue :=
  (groupKeys perf).filterMap fun m =>
    match groupMean perf m with
    | Option.none => Option.none
    | some avg =>
      if benchmarkOf m ≠ 0 ∧ benchmarkOf m * (3 / 2) < avg then
        some ⟨m, avg, benchmarkOf m, "performance_bottleneck"⟩
      else Option.none

/-- A raw sample viewed with its numeric duration (sound once the dtype
check has ruled out string durations). -/
def toPerfRec (r : RawPerfRec) : PerfRec :=
  ⟨r.module, r.operation, jNum r.duration⟩

/-- Pandas entry to `_analyze_performance`: building the DataFrame and
taking the grouped mean raises a `TypeError` when any duration sample is
string-typed (the column dtype becomes object and the aggregation cannot
convert it); otherwise the analysis runs on the numeric samples.  The
`Except.error` is that uncaught exception. -/
def analyzePerformanceRaw (raw : List RawPerfRec) :
    Except Unit (List PerfIssue) :=
  if raw.any fun r => r.duration.isStr then Except.error ()
  else Except.ok (analyzePerformance (raw.map toPerfRec))

/-- The technician's `self.findings` dict. -/
structure Findings where
  errors : List LogErrRec
  warnings : List String
  performance_issues : List PerfIssue
  dependency_issues : List DepIssue
  hardware_issues : List HwIssue
  qc_issues : List QCFinding
deriving DecidableEq, Repr

/-- The inputs one `analyze_logs` pass reads: the JSON decoder, the log
files (contents, or `none` for an unreadable file), the QC report files,
and the dependency environment. -/
structure AnalyzeEnv where
  jsonLoads : String → JParse
  logFiles : List (Option (List String))
  qcFiles : List (String × Option QcRep)
  deps : DepEnv

/-- Model of `analyze_logs`: scans every log file, extends the combined
`all_log_data`, processes the QC reports, then assigns each field of
`self.findings` in source order and returns the findings (next to the
post-call state of `self.findings`).  When the pandas mean inside
`_analyze_performance` raises, the `errors` and `warnings` fields have
already been assigned; the outer `except Exception` logs the failure and
the method returns `{}` (modelled `none`) with the remaining findings
fields left at their prior values. -/
def analyzeLogs (st : Findings) (env : AnalyzeEnv) :
    Findings × Option Findings :=
  let allData := env.logFiles.foldl
    (fun acc f => mergeLogData acc (parseLogFile env.jsonLoads f)) ⟨[], [], []⟩
  let qc := qcIssues env.qcFiles
  let st1 := { st with errors := allData.errors }
  let st2 := { st1 with warnings := allData.warnings }
  match analyzePerformanceRaw allData.performance with
  | Except.error _ => (st2, Option.none)
  | Except.ok perfIssues =>
    let st3 := { st2 with performance_issues := perfIssues }
    let st4 := { st3 with dependency_issues := checkDependencies env.deps }
    let st5 := { st4 with qc_issues := qc }
    let st6 := { st5 with hardware_issues := checkHardware }
    (st6, some st6)

/-- One suggestion of `suggest_improvements` (`command` is absent on
performance and QC suggestions). -/
structure Suggestion where
  action : String
  command : Option String
  alternatives : List String
deriving DecidableEq, Repr

/-- The three ranked buckets `suggest_improvements` returns. -/
structure Suggestions where
  critical : List Suggestion
  recommended : List Suggestion
  optional : List Suggestion
deriving DecidableEq, Repr

/-- Python `f"{x:.1f}"` on a rational, modelled by truncation to one
decimal place (the exact rounding of the rendered text plays no role in
any property below). -/
def fmt1 (q : ℚ) : String :=
  toString (Int.floor (q * 10) / 10) ++ "." ++ toString ((Int.floor (q * 10)) % 10)

/-- Python `str()` of a JSON scalar inside an f-string. -/
def renderJ : JVal → String
  | .str s => s
  | .num q => toString q

/-- The remediation table lookup `config.tool_alternatives.get(module, [])`
made for a flagged performance issue. -/
def perfAlternatives (m : JVal) : List String :=
  match m with
  | .str s => (toolAlternatives.lookup s).getD []
  | .num _ => []

/-- The suggestion built for one performance issue. -/
def mkPerfSuggestion (i : PerfIssue) : Suggestion :=
  ⟨"Optimize " ++ renderJ i.module ++ " (took " ++ fmt1 i.actual_time
      ++ "s, expected " ++ fmt1 i.expected_time ++ "s)",
   Option.none, perfAlternatives i.module⟩

/-- The suggestion built for one dependency issue. -/
def mkDepSuggestion (i : DepIssue) : Suggestion :=
  if i.issue = "missing" then
    ⟨"Install missing module: " ++ i.module,
     some ("pip install " ++ i.module), i.alternatives⟩
  else
    ⟨"Resolve dependency conflict: " ++ i.message, some "pip check --fix", []⟩

/-- The suggestion built for one low-score QC finding. -/
def mkQcSuggestion (i : QCFinding) : Suggestion :=
  ⟨"Review QC issues in " ++ i.source ++ " (score: " ++ toString i.score
      ++ "/5)", Option.none, []⟩

/-- The classification test for a critical performance issue:
`issue["actual_time"] > issue["expected_time"] * 2`. -/
def isCritPerf (i : PerfIssue) : Bool :=
  decide (i.expected_time * 2 < i.actual_time)

/-- Whether remediation alternatives exist for the issue's stage. -/
def hasAlts (i : PerfIssue) : Bool :=
  !(perfAlternatives i.module).isEmpty

/-- Model of `suggest_improvements`: dependency issues all become
critical; a performance issue is critical above 2x the benchmark, else
recommended when alternatives exist, else optional; a QC finding below
score 3.0 is critical. -/
def suggestImprovements (f : Findings) : Suggestions :=
  let s1 := f.dependency_issues.foldl (fun s i =>
    { s with critical := s.critical ++ [mkDepSuggestion i] })
    ⟨[], [], []⟩
  let s2 := f.performance_issues.foldl (fun s i =>
    if i.expected_time * 2 < i.actual_time then
      { s with critical := s.critical ++ [mkPerfSuggestion i] }
    else if perfAlternatives i.module ≠ [] then
      { s with recommended := s.recommended ++ [mkPerfSuggestion i] }
    else
      { s with optional := s.optional ++ [mkPerfSuggestion i] }) s1
  let s3 := f.qc_issues.foldl (fun s i =>
    if i.score < 3 then
      { s with critical := s.critical ++ [mkQcSuggestion i] }
    else s) s2
  s3

/-! ## Log writer — `logging_utils` (src/utils/logging_utils.py)

The formatter is `%(asctime)s | %(levelname)-8s | %(name)s | %(message)s`
and `log_operation` renders the message as
`Operation: <op> | Status: <status> | <json.dumps(kwargs)>` where the
kwargs are `operation`, `status` and the caller's metadata — the level is
passed to `getattr(logger, level.lower())` and is never a key of the JSON
payload. -/

/-- Left-justified `%(levelname)-8s` column. -/
def padLevel (level : String) : String :=
  level ++ String.mk (List.replicate (8 - level.length) ' ')

/-- Python `json.dumps` of a flat dict of string values (insertion
order preserved). -/
def jsonDumpsStr (kvs : List (String × String)) : String :=
  "\x7b" ++ String.intercalate ", "
    (kvs.map fun kv => "\"" ++ kv.1 ++ "\": \"" ++ kv.2 ++ "\"") ++ "\x7d"

/-- One persisted log line as the system's own writer produces it for a
`log_operation` call with string-valued metadata. -/
def logOperationLine (asctime level name operation status : String)
    (metadata : List (String × String)) : String :=
  asctime ++ " | " ++ padLevel level ++ " | " ++ name ++ " | " ++
    "Operation: " ++ operation ++ " | Status: " ++ status ++ " | " ++
    jsonDumpsStr ([("operation", operation), ("status", status)] ++ metadata)

/-- A `level="ERROR"` line written by the system's own `log_operation`
(the failure path of `upload_to_youtube`). -/
def errorLineExample : String :=
  logOperationLine "2025-01-01 10:00:00" "ERROR" "uploader"
    "upload_to_youtube" "failed" [("error", "boom"), ("video", "video.mp4")]

/-- A `level="WARNING"` line written by the system's own `log_operation`. -/
def warningLineExample : String :=
  logOperationLine "2025-01-01 10:00:01" "WARNING" "uploader"
    "upload_retry" "retrying" [("reason", "timeout")]

/-- C6 (writer/parser mismatch): on a log file in the system's own
persisted format holding exactly one ERROR-level line and one
WARNING-level line, each with embedded JSON metadata, the analyze pass
reports zero errors and zero warnings — whatever the JSON decoder does —
because `_parse_log_file` greps for a JSON `"level"` key that
`log_operation` never emits (the level is only the second `|`-column).
The claim (and the spec) say the findings report exactly 1 and 1. -/
theorem analyze_misses_own_log_format (jsonLoads : String → JParse)
    (st : Findings) (deps : DepEnv) :
    ((analyzeLogs st
        ⟨jsonLoads, [some [errorLineExample, warningLineExample]], [], deps⟩).1).errors
      = []
    ∧ ((analyzeLogs st
        ⟨jsonLoads, [some [errorLineExample, warningLineExample]], [], deps⟩).1).warnings
      = []
    ∧ (analyzeLogs st
        ⟨jsonLoads, [some [errorLineExample, warningLineExample]], [], deps⟩).2
      = some (analyzeLogs st
        ⟨jsonLoads, [some [errorLineExample, warningLineExample]], [], deps⟩).1 := by
  have h1 : strContains errorLineExample errMarker = false := by decide
  have h2 : strContains errorLineExample warnMarker = false := by decide
  have h3 : strContains errorLineExample durMarker = false := by decide
  have h4 : strContains warningLineExample errMarker = false := by decide
  have h5 : strContains warningLineExample warnMarker = false := by decide
  have h6 : strContains warningLineExample durMarker = false := by decide
  have hparse : parseLines jsonLoads [errorLineExample, warningLineExample]
      = ⟨[], [], []⟩ := by
    simp [parseLines, parseLinesGo, parseLineStep, h1, h2, h3, h4, h5, h6]
  refine ⟨?_, ?_, ?_⟩ <;>
    simp [analyzeLogs, parseLogFile, hparse, mergeLogData,
      analyzePerformanceRaw]

theorem parseLineStep_inert (jl : String → JParse) (bad : String)
    (acc : LogData)
    (h1 : strContains bad errMarker = false)
    (h2 : strContains bad warnMarker = false)
    (h3 : jl (lastSegment bad) = JParse.failed) :
    parseLineStep jl acc bad = Except.ok acc := by
  cases hD : strContains bad durMarker <;>
    simp [parseLineStep, h1, h2, h3, hD]

theorem parseLinesGo_skip (jl : String → JParse) (bad : String)
    (h1 : strContains bad errMarker = false)
    (h2 : strContains bad warnMarker = false)
    (h3 : jl (lastSegment bad) = JParse.failed) :
    ∀ (pre post : List String) (acc : LogData),
      parseLinesGo jl (pre ++ bad :: post) acc
        = parseLinesGo jl (pre ++ post) acc := by
  intro pre
  induction pre with
  | nil =>
    intro post acc
    show parseLinesGo jl (bad :: post) acc = parseLinesGo jl post acc
    simp [parseLinesGo, parseLineStep_inert jl bad acc h1 h2 h3]
  | cons l pre' ih =>
    intro post acc
    simp only [List.cons_append, parseLinesGo]
    cases hs : parseLineStep jl acc l with
    | ok acc1 =>
      simp only [hs]
      exact ih post acc1
    | error a =>
      simp only [hs]

theorem parseLines_skip_undecodable (jl : String → JParse)
    (pre post : List String) (bad : String)
    (h1 : strContains bad errMarker = false)
    (h2 : strContains bad warnMarker = false)
    (h3 : jl (lastSegment bad) = JParse.failed) :
    parseLines jl (pre ++ bad :: post) = parseLines jl (pre ++ post) :=
  parseLinesGo_skip jl bad h1 h2 h3 pre post ⟨[], [], []⟩

theorem qcIssues_skip_unparseable (pre post : List (String × Option QcRep))
    (name : String) :
    qcIssues (pre ++ (name, Option.none) :: post) = qcIssues (pre ++ post) := by
  unfold qcIssues
  rw [List.foldl_append, List.foldl_append]
  rfl

/-- A line carrying the `duration_sec` marker whose last segment decodes
to valid non-object JSON (the number 5): `"duration_sec" in perf_data`
raises `TypeError`, which `except json.JSONDecodeError` does not catch. -/
def badDurationLine : String :=
  "2025-01-01 10:00:02 | INFO     | uploader | probe duration_sec | 5"

/-- A line carrying the WARNING level marker, which the parser counts. -/
def rawWarningLine : String :=
  "2025-01-01 10:00:03 | WARNING  | uploader | \"level\": \"WARNING\" marker"

/-- A decoder that, like `json.loads`, parses `badDurationLine`'s last
segment `" 5"` to the number 5 — valid non-object JSON that raises when
used as a dict — and fails to decode everything else. -/
def jlIntPayload : String → JParse :=
  fun s => if s = " 5" then JParse.nonobj true else JParse.failed

/-- C8 counterexample: the malformed `badDurationLine` is not merely
skipped — the uncaught `TypeError` aborts the file scan, so the
well-formed WARNING line after it is never counted; scanned alone, that
same WARNING line is counted. -/
theorem malformed_line_aborts_rest_counterexample :
    (parseLogFile jlIntPayload
        (some [badDurationLine, rawWarningLine])).warnings.length = 0
    ∧ (parseLogFile jlIntPayload
        (some [rawWarningLine])).warnings.length = 1 := by
  constructor <;> decide

/-- C8 (amended): with one fixed environment, the analyze pass returns the
same findings from any prior findings state, and rerunning it on its own
post-call state returns the same findings again (idempotence); a log line
with no level marker whose metadata fails to decode as JSON contributes
nothing and the scan continues past it; and an unparseable QC report file
is skipped.  A line whose payload decodes to valid non-object JSON
instead raises and drops the remaining lines of that one file (the pass
itself still completes over the other files and the findings fields
assigned up to a pandas failure keep their new values). -/
theorem analyze_idempotent_and_fault_tolerant (env : AnalyzeEnv)
    (st st2 : Findings) :
    (analyzeLogs st env).2 = (analyzeLogs st2 env).2
    ∧ (analyzeLogs (analyzeLogs st env).1 env).2 = (analyzeLogs st env).2
    ∧ (∀ (jl : String → JParse) (pre post : List String) (bad : String),
        strContains bad errMarker = false →
        strContains bad warnMarker = false →
        jl (lastSegment bad) = JParse.failed →
        parseLines jl (pre ++ bad :: post) = parseLines jl (pre ++ post))
    ∧ (∀ (pre post : List (String × Option QcRep)) (name : String),
        qcIssues (pre ++ (name, Option.none) :: post)
          = qcIssues (pre ++ post)) := by
  refine ⟨?_, ?_, parseLines_skip_undecodable, qcIssues_skip_unparseable⟩
  · rcases hA : analyzePerformanceRaw ((env.logFiles.foldl
        (fun acc f => mergeLogData acc (parseLogFile env.jsonLoads f))
        ⟨[], [], []⟩).performance) with _ | perfs <;>
      simp [analyzeLogs, hA]
  · rcases hA : analyzePerformanceRaw ((env.logFiles.foldl
        (fun acc f => mergeLogData acc (parseLogFile env.jsonLoads f))
        ⟨[], [], []⟩).performance) with _ | perfs <;>
      simp [analyzeLogs, hA]

theorem benchmark_lookup (mname : String) (b : ℚ)
    (hb : (mname, b) ∈ expectedTimings) :
    benchmarkOf (JVal.str mname) = b ∧ b ≠ 0 := by
  simp only [expectedTimings, List.mem_cons, List.not_mem_nil, or_false] at hb
  rcases hb with h | h | h | h | h <;>
    (rw [Prod.mk.injEq] at h; obtain ⟨rfl, rfl⟩ := h; exact ⟨rfl, by norm_num⟩)

theorem mem_analyzePerformance (perf : List PerfRec) (i : PerfIssue) :
    i ∈ analyzePerformance perf ↔
      ∃ m avg, m ∈ groupKeys perf ∧ groupMean perf m = some avg
        ∧ benchmarkOf m ≠ 0 ∧ benchmarkOf m * (3 / 2) < avg
        ∧ i = ⟨m, avg, benchmarkOf m, "performance_bottleneck"⟩ := by
  simp only [analyzePerformance, List.mem_filterMap]
  constructor
  · rintro ⟨m, hm, hf⟩
    rcases hgm : groupMean perf m with _ | avg
    · rw [hgm] at hf; cases hf
    · rw [hgm] at hf
      dsimp only at hf
      split_ifs at hf with hc
      injection hf with hi
      exact ⟨m, avg, hm, hgm, hc.1, hc.2, hi.symm⟩
  · rintro ⟨m, avg, hm, hgm, hb0, hlt, rfl⟩
    refine ⟨m, hm, ?_⟩
    rw [hgm]
    dsimp only
    rw [if_pos ⟨hb0, hlt⟩]

theorem groupMean_mem_keys (perf : List PerfRec) (m : JVal) (avg : ℚ)
    (h : groupMean perf m = some avg) : m ∈ groupKeys perf := by
  unfold groupMean at h
  rcases hd : groupDurations perf m with _ | ⟨d, ds⟩
  · rw [hd] at h; cases h
  · have hdm : d ∈ groupDurations perf m := by
      rw [hd]; exact List.mem_cons_self _ _
    rcases List.mem_filterMap.mp hdm with ⟨r, hr, hf⟩
    have hm : r.module = m := by
      by_cases hrm : r.module = m
      · exact hrm
      · rw [if_neg hrm] at hf; cases hf
    exact List.mem_dedup.mpr (List.mem_map.mpr ⟨r, hr, hm⟩)

theorem depFold_eq (l : List DepIssue) : ∀ s : Suggestions,
    l.foldl (fun s i =>
        { s with critical := s.critical ++ [mkDepSuggestion i] }) s
      = ⟨s.critical ++ l.map mkDepSuggestion, s.recommended, s.optional⟩ := by
  induction l with
  | nil => intro s; cases s; simp
  | cons i rest ih =>
    intro s
    simp only [List.foldl_cons, List.map_cons]
    rw [ih]
    simp [List.append_assoc]

theorem perfFold_eq (l : List PerfIssue) : ∀ s : Suggestions,
    l.foldl (fun s i =>
      if i.expected_time * 2 < i.actual_time then
        { s with critical := s.critical ++ [mkPerfSuggestion i] }
      else if perfAlternatives i.module ≠ [] then
        { s with recommended := s.recommended ++ [mkPerfSuggestion i] }
      else
        { s with optional := s.optional ++ [mkPerfSuggestion i] }) s
    = ⟨s.critical ++ (l.filter isCritPerf).map mkPerfSuggestion,
       s.recommended
         ++ (l.filter fun i => !isCritPerf i && hasAlts i).map mkPerfSuggestion,
       s.optional
         ++ (l.filter fun i => !isCritPerf i && !hasAlts i).map mkPerfSuggestion⟩ := by
  induction l with
  | nil => intro s; cases s; simp
  | cons i rest ih =>
    intro s
    simp only [List.foldl_cons]
    by_cases hc : i.expected_time * 2 < i.actual_time
    · rw [if_pos hc, ih]
      have hcrit : isCritPerf i = true := by simp [isCritPerf, hc]
      simp [List.filter_cons, hcrit, List.append_assoc]
    · rw [if_neg hc]
      have hcf : isCritPerf i = false := by simp [isCritPerf, hc]
      by_cases ha : perfAlternatives i.module ≠ []
      · rw [if_pos ha, ih]
        have halt : hasAlts i = true := by
          rcases hpa : perfAlternatives i.module with _ | ⟨x, xs⟩
          · exact absurd hpa ha
          · simp [hasAlts, hpa]
        simp [List.filter_cons, hcf, halt, List.append_assoc]
      · rw [if_neg ha, ih]
        have ha0 : perfAlternatives i.module = [] := not_not.mp ha
        have halt : hasAlts i = false := by simp [hasAlts, ha0]
        simp [List.filter_cons, hcf, halt, List.append_assoc]

theorem qcFold_eq (l : List QCFinding) : ∀ s : Suggestions,
    l.foldl (fun s i =>
      if i.score < 3 then
        { s with critical := s.critical ++ [mkQcSuggestion i] }
      else s) s
    = ⟨s.critical ++ (l.filter fun i => decide (i.score < 3)).map mkQcSuggestion,
       s.recommended, s.optional⟩ := by
  induction l with
  | nil => intro s; cases s; simp
  | cons i rest ih =>
    intro s
    simp only [List.foldl_cons]
    by_cases hc : i.score < 3
    · rw [if_pos hc, ih]
      simp [List.filter_cons, hc, List.append_assoc]
    · rw [if_neg hc, ih]
      simp [List.filter_cons, hc]

theorem suggestImprovements_eq (f : Findings) :
    suggestImprovements f =
      ⟨f.dependency_issues.map mkDepSuggestion
        ++ (f.performance_issues.filter isCritPerf).map mkPerfSuggestion
        ++ (f.qc_issues.filter fun i => decide (i.score < 3)).map mkQcSuggestion,
       (f.performance_issues.filter fun i =>
          !isCritPerf i && hasAlts i).map mkPerfSuggestion,
       (f.performance_issues.filter fun i =>
          !isCritPerf i && !hasAlts i).map mkPerfSuggestion⟩ := by
  simp only [suggestImprovements]
  rw [depFold_eq, perfFold_eq, qcFold_eq]
  simp [List.append_assoc]

/-- C7: for a stage with an entry `b` of the benchmark table, a
performance issue for that stage exists exactly when the stage has samples
and their mean exceeds `1.5 * b`; the flagged issue carries the benchmark
and the observed mean; and `suggest_improvements` puts a flagged issue in
`critical` exactly when the mean exceeds twice the benchmark, otherwise in
`recommended` when remediation alternatives exist for the stage and in
`optional` when none do. -/
theorem performance_classification (samples : List PerfRec) (mname : String)
    (b : ℚ) (hb : (mname, b) ∈ expectedTimings) (f : Findings) :
    ((∃ i ∈ analyzePerformance samples, i.module = JVal.str mname) ↔
      (∃ avg, groupMean samples (JVal.str mname) = some avg ∧ b * (3 / 2) < avg))
    ∧ (∀ i ∈ analyzePerformance samples, i.module = JVal.str mname →
        i.expected_time = b
        ∧ groupMean samples (JVal.str mname) = some i.actual_time)
    ∧ (f.dependency_issues = [] → f.qc_issues = [] →
        (suggestImprovements f).critical
          = (f.performance_issues.filter isCritPerf).map mkPerfSuggestion)
    ∧ ((suggestImprovements f).recommended
        = (f.performance_issues.filter fun i =>
            !isCritPerf i && hasAlts i).map mkPerfSuggestion)
    ∧ ((suggestImprovements f).optional
        = (f.performance_issues.filter fun i =>
            !isCritPerf i && !hasAlts i).map mkPerfSuggestion) := by
  obtain ⟨hbeq, hb0⟩ := benchmark_lookup mname b hb
  refine ⟨?_, ?_, ?_, ?_, ?_⟩
  · constructor
    · rintro ⟨i, hi, him⟩
      rcases (mem_analyzePerformance samples i).mp hi with
        ⟨m, avg, hm, hgm, _, hlt, hieq⟩
      rw [hieq] at him
      simp only at him
      rw [him] at hgm hlt
      rw [hbeq] at hlt
      exact ⟨avg, hgm, hlt⟩
    · rintro ⟨avg, hgm, hlt⟩
      have hm := groupMean_mem_keys samples (JVal.str mname) avg hgm
      refine ⟨⟨JVal.str mname, avg, benchmarkOf (JVal.str mname),
        "performance_bottleneck"⟩, ?_, rfl⟩
      refine (mem_analyzePerformance samples _).mpr
        ⟨JVal.str mname, avg, hm, hgm, ?_, ?_, rfl⟩
      · rw [hbeq]; exact hb0
      · rw [hbeq]; exact hlt
  · intro i hi him
    rcases (mem_analyzePerformance samples i).mp hi with
      ⟨m, avg, hm, hgm, _, _, hieq⟩
    rw [hieq] at him ⊢
    simp only at him ⊢
    rw [him] at hgm
    exact ⟨by rw [him, hbeq], hgm⟩
  · intro hd hq
    rw [suggestImprovements_eq, hd, hq]
    simp
  · rw [suggestImprovements_eq]
  · rw [suggestImprovements_eq]

/-- A concrete performance sample set for the C7 witness: one `ingestion`
sample of 50 seconds against the 30-second benchmark. -/
def perfSamplesW : List PerfRec :=
  [⟨JVal.str "ingestion", JVal.str "process_source", 50⟩]

/-- Findings holding exactly the flagged issues of `perfSamplesW`. -/
def findingsW : Findings :=
  ⟨[], [], analyzePerformance perfSamplesW, [], [], []⟩

theorem performance_classification_witness :
    ((∃ i ∈ analyzePerformance perfSamplesW, i.module = JVal.str "ingestion") ↔
      (∃ avg, groupMean perfSamplesW (JVal.str "ingestion") = some avg
        ∧ (30 : ℚ) * (3 / 2) < avg))
    ∧ (∀ i ∈ analyzePerformance perfSamplesW, i.module = JVal.str "ingestion" →
        i.expected_time = (30 : ℚ)
        ∧ groupMean perfSamplesW (JVal.str "ingestion") = some i.actual_time)
    ∧ (findingsW.dependency_issues = [] → findingsW.qc_issues = [] →
        (suggestImprovements findingsW).critical
          = (findingsW.performance_issues.filter isCritPerf).map mkPerfSuggestion)
    ∧ ((suggestImprovements findingsW).recommended
        = (findingsW.performance_issues.filter fun i =>
            !isCritPerf i && hasAlts i).map mkPerfSuggestion)
    ∧ ((suggestImprovements findingsW).optional
        = (findingsW.performance_issues.filter fun i =>
            !isCritPerf i && !hasAlts i).map mkPerfSuggestion) :=
  performance_classification perfSamplesW "ingestion" 30 (by decide) findingsW

end ACG
